import Mathlib

/-!
Shallow embedding of `src/td/telegram/Global.cpp` (the `td::Global`
execution context and its clock-synchronization engine), together with
theorems settling the claims about it.

Modelling conventions:
* `double` values (time offsets, clock readings) are modelled as `ℚ`;
  only ordering, `max` and `+`/`-` on them matter for these claims.
* A persisted key-value entry read through `get_binlog_pmc()->get(key)`
  is a string; the empty string means the key is absent, a non-empty
  string is fed to `unserialize`, which either yields a `double` or
  fails. We model the observable outcome as `PValue`:
  `absent` (empty string), `value v` (deserializes to `v`), `malformed`
  (deserialization error). `unserialize(...).ensure()` in the source
  aborts the process on error (a `CHECK`-style fatal assertion); the
  abort is modelled as `Except.error ()`.
* Actor handles (`ActorOwn<...>` / `unique_ptr<...>` slots) are modelled
  as `Option Nat`: `none` is the empty/absent handle, and the getter
  `.get()` of an empty `ActorOwn` returns an empty `ActorId` (`none`).
* Writes to the persistent store are returned as an explicit list of
  `(key, value)` pairs.
* `Time::now()` (the local monotonic clock) and `Clocks::system()` (the
  system wall clock) are passed explicitly as arguments at each call
  that reads them.
-/

namespace TdGlobal

/-- The subset of `TdParameters` this translation needs: it is a plain
value type, copy-assigned at `init` and reset to the default-constructed
value at `close_all`/`close_and_destroy_all`.  Only the flags that
`Global.cpp` itself reads are carried; both are default-`false`. -/
structure TdParameters where
  use_file_db : Bool := false
  use_secret_chats : Bool := false
deriving DecidableEq, Repr

/-- Observable outcome of reading one persisted key and deserializing it:
the key is absent (empty string), deserializes to a value, or is present
but malformed (deserialization error). -/
inductive PValue where
  | absent
  | malformed
  | value (v : ℚ)
deriving DecidableEq, Repr

/-- `td::Status` as far as `Global::init` returns one: the source's only
return statement is `return Status::OK();`, but the error alternative is
part of the type, so a returned failure is representable. -/
inductive Status where
  | ok
  | error
deriving DecidableEq, Repr

/-- The mutable state of a `td::Global` object: configuration, scheduler
partition ids, the owned sub-actor slots, the time-sync state and the
location-access-hash cache. -/
structure GlobalState where
  parameters : TdParameters
  gc_scheduler_id : Int
  slow_net_scheduler_id : Int
  /-- whether `td_db_` holds a database facade (`td_db_` as a boolean) -/
  has_td_db : Bool
  connection_creator : Option Nat
  temp_auth_key_watchdog : Option Nat
  net_query_dispatcher : Option Nat
  mtproto_header : Option Nat
  state_manager : Option Nat
  server_time_difference : ℚ
  server_time_difference_was_updated : Bool
  dns_time_difference : ℚ
  dns_time_difference_was_updated : Bool
  system_time_saved_at : ℚ
  location_access_hashes : List (Int × Int)
deriving DecidableEq, Repr

/-- The command `close_all` / `close_and_destroy_all` sends to the owned
database facade (`td_db_->close_all(...)` resp.
`td_db_->close_and_destroy_all(...)`); completion is reported
asynchronously through the promise and is not part of this state. -/
inductive DbCommand where
  | close_all
  | close_and_destroy_all
deriving DecidableEq, Repr

/-- `Global::close_all`: asks the database facade to close (asynchronous,
returned as the `DbCommand`), clears `state_manager_` and resets
`parameters_` to a default-constructed `TdParameters`.  No other member
is touched. -/
def close_all (g : GlobalState) : GlobalState × DbCommand :=
  ({ g with state_manager := none, parameters := {} }, DbCommand.close_all)

/-- `Global::close_and_destroy_all`: same as `close_all` but the database
facade is told to also erase its persisted state. -/
def close_and_destroy_all (g : GlobalState) : GlobalState × DbCommand :=
  ({ g with state_manager := none, parameters := {} }, DbCommand.close_and_destroy_all)

/-- `Global::connection_creator`: `connection_creator_.get()`; the getter
of an empty `ActorOwn` yields an empty `ActorId` (`none`). -/
def connection_creator (g : GlobalState) : Option Nat :=
  g.connection_creator

/-- `Global::temp_auth_key_watchdog`: `temp_auth_key_watchdog_.get()`. -/
def temp_auth_key_watchdog (g : GlobalState) : Option Nat :=
  g.temp_auth_key_watchdog

/-- `Global::set_connection_creator`. -/
def set_connection_creator (g : GlobalState) (a : Option Nat) : GlobalState :=
  { g with connection_creator := a }

/-- `Global::set_temp_auth_key_watchdog`. -/
def set_temp_auth_key_watchdog (g : GlobalState) (a : Option Nat) : GlobalState :=
  { g with temp_auth_key_watchdog := a }

/-- `Global::set_net_query_dispatcher`. -/
def set_net_query_dispatcher (g : GlobalState) (a : Option Nat) : GlobalState :=
  { g with net_query_dispatcher := a }

/-- `Global::set_mtproto_header`. -/
def set_mtproto_header (g : GlobalState) (a : Option Nat) : GlobalState :=
  { g with mtproto_header := a }

/-- `Global::init`.  Arguments beyond the state: the parameters, the
scheduler id/count read from `Scheduler::instance()`, the two persisted
entries read from the binlog pmc (`"server_time_difference"` and
`"system_time"`), and the two clock readings `Clocks::system()`
(`system_time`) and `Time::now()` (`mono_now`) taken once at the top.

`unserialize(...).ensure()` aborts the process on a malformed string;
the abort is `Except.error ()`.  Every return path of the source returns
`Status::OK()`, which is why no branch below produces `Status.error`. -/
def init (g : GlobalState) (parameters : TdParameters) (sched_id sched_count : Int)
    (save_diff_str save_system_time_str : PValue)
    (system_time mono_now : ℚ) : Except Unit (Status × GlobalState) :=
  let g := { g with
    parameters := parameters,
    gc_scheduler_id := min (sched_id + 2) (sched_count - 1),
    slow_net_scheduler_id := min (sched_id + 3) (sched_count - 1),
    has_td_db := true }
  let default_time_difference := system_time - mono_now
  match save_diff_str with
  | PValue.absent =>
      Except.ok (Status.ok, { g with
        server_time_difference := default_time_difference,
        server_time_difference_was_updated := false,
        dns_time_difference := default_time_difference,
        dns_time_difference_was_updated := false })
  | PValue.malformed => Except.error ()
  | PValue.value save_diff =>
      let load (save_system_time : ℚ) : Status × GlobalState :=
        let diff := save_diff + default_time_difference
        let diff :=
          if save_system_time > system_time then
            diff + (save_system_time - system_time)
          else diff
        (Status.ok, { g with
          server_time_difference := diff,
          server_time_difference_was_updated := false,
          dns_time_difference := default_time_difference,
          dns_time_difference_was_updated := false })
      match save_system_time_str with
      | PValue.malformed => Except.error ()
      | PValue.absent => Except.ok (load 0)
      | PValue.value v => Except.ok (load v)

/-- `Global::save_system_time`: with `t = Time::now()`, writes the
current `Clocks::system()` reading under the `"system_time"` key only
when `system_time_saved_at_ + 10 < t`, updating `system_time_saved_at_`
to `t`.  Returns the new state and the list of writes (empty or one). -/
def save_system_time (g : GlobalState) (mono_now system_now : ℚ) :
    GlobalState × List (String × ℚ) :=
  if g.system_time_saved_at + 10 < mono_now then
    ({ g with system_time_saved_at := mono_now },
     [("system_time", system_now)])
  else
    (g, [])

/-- `Global::update_server_time_difference`: the candidate is applied
when the server slot was never updated or the candidate is strictly
larger than the stored offset; on acceptance it stores the offset, marks
the slot updated, writes `diff + Time::now() - Clocks::system()` under
`"server_time_difference"` unconditionally and then calls
`save_system_time` (throttled). -/
def update_server_time_difference (g : GlobalState) (diff mono_now system_now : ℚ) :
    GlobalState × List (String × ℚ) :=
  if g.server_time_difference_was_updated = false ∨ g.server_time_difference < diff then
    let g := { g with
      server_time_difference := diff,
      server_time_difference_was_updated := true }
    let save_diff := diff + mono_now - system_now
    let p := save_system_time g mono_now system_now
    (p.1, ("server_time_difference", save_diff) :: p.2)
  else
    (g, [])

/-- `Global::update_dns_time_difference`: unconditional overwrite. -/
def update_dns_time_difference (g : GlobalState) (diff : ℚ) : GlobalState :=
  { g with dns_time_difference := diff, dns_time_difference_was_updated := true }

/-- `Global::get_dns_time_difference` (a `const` method: it reads the two
slots, the database-handle presence and, on the last branch, the two
clocks; it modifies nothing). -/
def get_dns_time_difference (g : GlobalState) (system_now mono_now : ℚ) : ℚ :=
  let dns_flag := g.dns_time_difference_was_updated
  let dns_diff := g.dns_time_difference
  let server_flag := g.server_time_difference_was_updated
  let server_diff := g.server_time_difference
  if dns_flag ≠ server_flag then
    (if dns_flag then dns_diff else server_diff)
  else if dns_flag then
    max dns_diff server_diff
  else if g.has_td_db then
    server_diff
  else
    system_now - mono_now

/-- `Global::get_webfile_dc_id`.  `DcId::is_valid` lives outside the
provided sources, so validity is an explicit parameter here; an absent
`"webfile_dc_id"` option reads back as an integer the validity test
rejects (the option getter's default, `0`).  After substituting the
fallback the source runs `CHECK(DcId::is_valid(dc_id))`; a failing
`CHECK` aborts and is modelled as `none`. -/
def get_webfile_dc_id (is_valid : Int → Bool) (is_test_dc : Bool)
    (webfile_dc_id : Int) : Option Int :=
  if is_valid webfile_dc_id = false then
    let dc_id : Int := if is_test_dc then 2 else 4
    if is_valid dc_id then some dc_id else none
  else
    some webfile_dc_id

/-- Modelled from the spec: `DcId::is_valid` is not among the provided
sources; the spec only requires that the hardcoded fallbacks 2 and 4 be
valid identifiers.  This concrete instance (identifiers 1..1000, the
range used by the surrounding system) satisfies that and is used by
witnesses. -/
def dc_is_valid (dc_id : Int) : Bool :=
  1 ≤ dc_id ∧ dc_id ≤ 1000

/-- Insertion into the location-access-hash cache, the effect of
`location_access_hashes_[key] = access_hash` on a `std::map` viewed as an
association list: replace the mapped value if the key is present,
otherwise append a new entry. -/
def map_insert (key v : Int) : List (Int × Int) → List (Int × Int)
  | [] => [(key, v)]
  | (k, h) :: rest =>
      if k = key then (k, v) :: rest else (k, h) :: map_insert key v rest

/-- `Global::get_location_access_hash`, factored through the geocell key:
the source first computes `get_location_key(latitude, longitude)` — a
pure function of the coordinate pair — and then looks that key up,
returning the sentinel `0` when absent.  Both cache operations go
through the same key function, so they are embedded over the key. -/
def get_location_access_hash (g : GlobalState) (key : Int) : Int :=
  match g.location_access_hashes.lookup key with
  | none => 0
  | some h => h

/-- `Global::add_location_access_hash`, factored through the geocell key
exactly as `get_location_access_hash` is: a sentinel-zero token returns
immediately without touching the cache. -/
def add_location_access_hash (g : GlobalState) (key : Int) (access_hash : Int) :
    GlobalState :=
  if access_hash = 0 then g
  else { g with location_access_hashes := map_insert key access_hash g.location_access_hashes }

/-- A run of `save_system_time` calls: each element of the list is a
`(Time::now(), Clocks::system())` reading pair observed by one call.
Returns the final state and the list of monotonic times at which a write
to the `"system_time"` key happened. -/
def run_saves (g : GlobalState) : List (ℚ × ℚ) → GlobalState × List ℚ
  | [] => (g, [])
  | (m, s) :: rest =>
      ((run_saves (save_system_time g m s).1 rest).1,
       (if (save_system_time g m s).2 = [] then ([] : List ℚ) else [m]) ++
         (run_saves (save_system_time g m s).1 rest).2)

/-- A run of `update_server_time_difference` calls: each element of the
list is a `(candidate, Time::now(), Clocks::system())` triple observed
by one call. -/
def run_server_updates (g : GlobalState) : List (ℚ × ℚ × ℚ) → GlobalState
  | [] => g
  | (d, m, s) :: rest =>
      run_server_updates (update_server_time_difference g d m s).1 rest

/-- The trajectory of stored server offsets: the value of
`server_time_difference_` after each call of a run of
`update_server_time_difference` calls. -/
def server_offset_traj (g : GlobalState) : List (ℚ × ℚ × ℚ) → List ℚ
  | [] => []
  | (d, m, s) :: rest =>
      ((update_server_time_difference g d m s).1).server_time_difference ::
        server_offset_traj (update_server_time_difference g d m s).1 rest

/-- A concrete empty `GlobalState`, used as the base point of witnesses
and counterexamples. -/
def g₀ : GlobalState where
  parameters := {}
  gc_scheduler_id := 0
  slow_net_scheduler_id := 0
  has_td_db := true
  connection_creator := none
  temp_auth_key_watchdog := none
  net_query_dispatcher := none
  mtproto_header := none
  state_manager := none
  server_time_difference := 0
  server_time_difference_was_updated := false
  dns_time_difference := 0
  dns_time_difference_was_updated := false
  system_time_saved_at := 0
  location_access_hashes := []

/-- The cache invariant of the claim: no entry maps to the sentinel
token `0`. -/
def no_zero_tokens (l : List (Int × Int)) : Bool :=
  l.all (fun p => p.2 != 0)

end TdGlobal

section Helpers

/-- Membership after a `map_insert`: every entry of the result either
carries the inserted value or was already present. -/
theorem mem_map_insert {key v : Int} {l : List (Int × Int)} {p : Int × Int}
    (hp : p ∈ TdGlobal.map_insert key v l) : p.2 = v ∨ p ∈ l := by
  induction l with
  | nil =>
      simp [TdGlobal.map_insert] at hp
      subst hp
      exact Or.inl rfl
  | cons a rest ih =>
      obtain ⟨k, h⟩ := a
      by_cases hk : k = key
      · simp only [TdGlobal.map_insert, if_pos hk, List.mem_cons] at hp
        rcases hp with hp | hp
        · subst hp; exact Or.inl rfl
        · exact Or.inr (List.mem_cons_of_mem _ hp)
      · simp only [TdGlobal.map_insert, if_neg hk, List.mem_cons] at hp
        rcases hp with hp | hp
        · subst hp; exact Or.inr (List.mem_cons_self _ _)
        · rcases ih hp with h2 | h2
          · exact Or.inl h2
          · exact Or.inr (List.mem_cons_of_mem _ h2)

/-- `map_insert` of a non-zero token preserves the no-zero-token cache
invariant. -/
theorem map_insert_no_zero {key v : Int} {l : List (Int × Int)} (hv : v ≠ 0)
    (hl : TdGlobal.no_zero_tokens l = true) :
    TdGlobal.no_zero_tokens (TdGlobal.map_insert key v l) = true := by
  simp only [TdGlobal.no_zero_tokens, List.all_eq_true] at hl ⊢
  intro p hp
  rcases mem_map_insert hp with h2 | h2
  · simpa [h2] using hv
  · exact hl p h2

end Helpers

/-- C3: `get_dns_time_difference` follows the four-step resolution
policy: exactly one updated flag set returns that slot's offset; both
set returns the larger offset; neither set with a database handle
returns the server slot's offset; neither set without a database handle
returns the fresh instantaneous estimate `Clocks::system() - Time::now()`.
The embedding is a pure function of the state and the two clock
readings, so it can neither fail nor modify the state. -/
theorem get_dns_time_difference_resolution (g : TdGlobal.GlobalState)
    (system_now mono_now : ℚ) :
    (g.dns_time_difference_was_updated = true →
      g.server_time_difference_was_updated = false →
      TdGlobal.get_dns_time_difference g system_now mono_now = g.dns_time_difference) ∧
    (g.dns_time_difference_was_updated = false →
      g.server_time_difference_was_updated = true →
      TdGlobal.get_dns_time_difference g system_now mono_now = g.server_time_difference) ∧
    (g.dns_time_difference_was_updated = true →
      g.server_time_difference_was_updated = true →
      TdGlobal.get_dns_time_difference g system_now mono_now
        = max g.dns_time_difference g.server_time_difference) ∧
    (g.dns_time_difference_was_updated = false →
      g.server_time_difference_was_updated = false → g.has_td_db = true →
      TdGlobal.get_dns_time_difference g system_now mono_now = g.server_time_difference) ∧
    (g.dns_time_difference_was_updated = false →
      g.server_time_difference_was_updated = false → g.has_td_db = false →
      TdGlobal.get_dns_time_difference g system_now mono_now = system_now - mono_now) := by
  refine ⟨?_, ?_, ?_, ?_, ?_⟩
  · intro h1 h2; simp [TdGlobal.get_dns_time_difference, h1, h2]
  · intro h1 h2; simp [TdGlobal.get_dns_time_difference, h1, h2]
  · intro h1 h2; simp [TdGlobal.get_dns_time_difference, h1, h2]
  · intro h1 h2 h3; simp [TdGlobal.get_dns_time_difference, h1, h2, h3]
  · intro h1 h2 h3; simp [TdGlobal.get_dns_time_difference, h1, h2, h3]

/-- Witness for C3: the four resolution branches evaluated at concrete
states. -/
theorem get_dns_time_difference_resolution_witness :
    TdGlobal.get_dns_time_difference
      { TdGlobal.g₀ with
        dns_time_difference := 7
        dns_time_difference_was_updated := true
        server_time_difference := 3
        server_time_difference_was_updated := false } 50 20 = 7 ∧
    TdGlobal.get_dns_time_difference
      { TdGlobal.g₀ with
        dns_time_difference := 7
        dns_time_difference_was_updated := true
        server_time_difference := 3
        server_time_difference_was_updated := true } 50 20 = max 7 3 ∧
    TdGlobal.get_dns_time_difference
      { TdGlobal.g₀ with server_time_difference := 3, has_td_db := true } 50 20 = 3 ∧
    TdGlobal.get_dns_time_difference
      { TdGlobal.g₀ with server_time_difference := 3, has_td_db := false } 50 20 = 50 - 20 :=
  ⟨(get_dns_time_difference_resolution _ 50 20).1 rfl rfl,
   (get_dns_time_difference_resolution _ 50 20).2.2.1 rfl rfl,
   (get_dns_time_difference_resolution _ 50 20).2.2.2.1 rfl rfl rfl,
   (get_dns_time_difference_resolution _ 50 20).2.2.2.2 rfl rfl rfl⟩

/-- C2 counterexample: `close_all` clears only `state_manager_` (and the
parameters); a previously set connection-creator handle is still
returned by its getter afterwards, so not every ActorRegistry getter
returns the absent value after `close_all`. -/
theorem close_all_keeps_connection_creator_counterexample :
    TdGlobal.connection_creator
        (TdGlobal.close_all { TdGlobal.g₀ with connection_creator := some 7 }).1 = some 7 ∧
    TdGlobal.connection_creator
        (TdGlobal.close_all { TdGlobal.g₀ with connection_creator := some 7 }).1 ≠ none := by
  constructor
  · rfl
  · decide

/-- C2 amended: after `close_all` the network-state-manager slot is
cleared and the parameters read back as a default-constructed
`TdParameters`, but the other four registry slots (connection creator,
temp-auth-key watchdog, query dispatcher, protocol-header builder) are
left unchanged; the database facade receives the asynchronous close
command; `close_and_destroy_all` performs the same state reset. -/
theorem close_all_resets_state_manager_and_parameters (g : TdGlobal.GlobalState) :
    (TdGlobal.close_all g).1.state_manager = none ∧
    (TdGlobal.close_all g).1.parameters = {} ∧
    TdGlobal.connection_creator (TdGlobal.close_all g).1 = TdGlobal.connection_creator g ∧
    TdGlobal.temp_auth_key_watchdog (TdGlobal.close_all g).1
      = TdGlobal.temp_auth_key_watchdog g ∧
    (TdGlobal.close_all g).1.net_query_dispatcher = g.net_query_dispatcher ∧
    (TdGlobal.close_all g).1.mtproto_header = g.mtproto_header ∧
    (TdGlobal.close_all g).2 = TdGlobal.DbCommand.close_all ∧
    (TdGlobal.close_and_destroy_all g).1 = (TdGlobal.close_all g).1 := by
  refine ⟨rfl, rfl, rfl, rfl, rfl, rfl, rfl, rfl⟩

/-- C8: inserting the sentinel token `0` into the location cache is a
no-op — the state is unchanged, every subsequent lookup returns what it
returned before — and inserting any token preserves the invariant that
the sentinel `0` is never stored.  Both cache operations consume the
coordinates only through the shared pure key function
`get_location_key(latitude, longitude)`, so quantifying over the key
covers every latitude/longitude pair. -/
theorem add_location_access_hash_zero_noop (g : TdGlobal.GlobalState) (key : Int) :
    TdGlobal.add_location_access_hash g key 0 = g ∧
    (∀ k2 : Int,
      TdGlobal.get_location_access_hash (TdGlobal.add_location_access_hash g key 0) k2
        = TdGlobal.get_location_access_hash g k2) ∧
    (∀ h : Int, TdGlobal.no_zero_tokens g.location_access_hashes = true →
      TdGlobal.no_zero_tokens
        (TdGlobal.add_location_access_hash g key h).location_access_hashes = true) := by
  refine ⟨?_, ?_, ?_⟩
  · simp [TdGlobal.add_location_access_hash]
  · intro k2; simp [TdGlobal.add_location_access_hash]
  · intro h hg
    by_cases h0 : h = 0
    · simpa [TdGlobal.add_location_access_hash, h0] using hg
    · simpa [TdGlobal.add_location_access_hash, h0] using map_insert_no_zero h0 hg

/-- Witness for C8: concrete no-op and invariant preservation on a
one-entry cache. -/
theorem add_location_access_hash_zero_noop_witness :
    TdGlobal.add_location_access_hash
        { TdGlobal.g₀ with location_access_hashes := [(32512, 5)] } 32512 0
      = { TdGlobal.g₀ with location_access_hashes := [(32512, 5)] } ∧
    TdGlobal.get_location_access_hash
        (TdGlobal.add_location_access_hash
          { TdGlobal.g₀ with location_access_hashes := [(32512, 5)] } 32512 0) 32512
      = TdGlobal.get_location_access_hash
          { TdGlobal.g₀ with location_access_hashes := [(32512, 5)] } 32512 ∧
    TdGlobal.no_zero_tokens
        (TdGlobal.add_location_access_hash
          { TdGlobal.g₀ with location_access_hashes := [(32512, 5)] } 32512 9).location_access_hashes
      = true :=
  ⟨(add_location_access_hash_zero_noop _ 32512).1,
   (add_location_access_hash_zero_noop _ 32512).2.1 32512,
   (add_location_access_hash_zero_noop _ 32512).2.2 9 (by decide)⟩

/-- C9: `get_webfile_dc_id` returns the `"webfile_dc_id"` option value
unchanged whenever it is a valid data-center identifier; otherwise (an
invalid value, or the option getter's default for an absent key, which
the validity test rejects) it returns DC 2 in a test environment and
DC 4 otherwise.  The hypotheses record the `CHECK`-asserted validity of
the two hardcoded fallbacks. -/
theorem get_webfile_dc_id_fallback (is_valid : Int → Bool) (is_test_dc : Bool) (opt : Int)
    (h2 : is_valid 2 = true) (h4 : is_valid 4 = true) :
    (is_valid opt = true → TdGlobal.get_webfile_dc_id is_valid is_test_dc opt = some opt) ∧
    (is_valid opt = false →
      TdGlobal.get_webfile_dc_id is_valid is_test_dc opt
        = some (if is_test_dc then 2 else 4)) := by
  constructor
  · intro h; simp [TdGlobal.get_webfile_dc_id, h]
  · intro h; cases is_test_dc <;> simp [TdGlobal.get_webfile_dc_id, h, h2, h4]

/-- Witness for C9: with the concrete 1..1000 validity predicate, the
absent-option default 0 falls back to DC 2 (test) or DC 4 (production),
and the valid value 5 is passed through. -/
theorem get_webfile_dc_id_fallback_witness :
    TdGlobal.get_webfile_dc_id TdGlobal.dc_is_valid true 0 = some 2 ∧
    TdGlobal.get_webfile_dc_id TdGlobal.dc_is_valid false 0 = some 4 ∧
    TdGlobal.get_webfile_dc_id TdGlobal.dc_is_valid false 5 = some 5 :=
  ⟨by simpa using
      (get_webfile_dc_id_fallback TdGlobal.dc_is_valid true 0 (by decide) (by decide)).2
        (by decide),
   by simpa using
      (get_webfile_dc_id_fallback TdGlobal.dc_is_valid false 0 (by decide) (by decide)).2
        (by decide),
   (get_webfile_dc_id_fallback TdGlobal.dc_is_valid false 5 (by decide) (by decide)).1
     (by decide)⟩

section UpdateServerLemmas

/-- `save_system_time` written as an explicit conditional. -/
theorem save_system_time_eq (g : TdGlobal.GlobalState) (m s : ℚ) :
    TdGlobal.save_system_time g m s =
      if g.system_time_saved_at + 10 < m then
        ({ g with system_time_saved_at := m }, [("system_time", s)])
      else (g, []) := rfl

/-- After any `update_server_time_difference` call the server slot is
marked updated: an accepted candidate sets the flag, and a rejected one
presupposes the flag was already set. -/
theorem update_server_flag (g : TdGlobal.GlobalState) (d m s : ℚ) :
    ((TdGlobal.update_server_time_difference g d m s).1).server_time_difference_was_updated
      = true := by
  unfold TdGlobal.update_server_time_difference
  by_cases hc : g.server_time_difference_was_updated = false ∨ g.server_time_difference < d
  · rw [if_pos hc]
    unfold TdGlobal.save_system_time
    dsimp only
    split <;> rfl
  · rw [if_neg hc]
    push_neg at hc
    simpa using hc.1

/-- The stored server offset after one `update_server_time_difference`
call: the candidate when accepted, the previous value otherwise. -/
theorem update_server_offset (g : TdGlobal.GlobalState) (d m s : ℚ) :
    ((TdGlobal.update_server_time_difference g d m s).1).server_time_difference
      = if g.server_time_difference_was_updated = false ∨ g.server_time_difference < d
        then d else g.server_time_difference := by
  unfold TdGlobal.update_server_time_difference
  by_cases hc : g.server_time_difference_was_updated = false ∨ g.server_time_difference < d
  · rw [if_pos hc, if_pos hc]
    unfold TdGlobal.save_system_time
    dsimp only
    split <;> rfl
  · rw [if_neg hc, if_neg hc]

/-- A rejected candidate (slot already updated, candidate not larger)
leaves the state untouched and performs no persistent write. -/
theorem update_server_skip (g : TdGlobal.GlobalState) (d m s : ℚ)
    (h1 : g.server_time_difference_was_updated = true)
    (h2 : ¬ g.server_time_difference < d) :
    TdGlobal.update_server_time_difference g d m s = (g, []) := by
  unfold TdGlobal.update_server_time_difference
  rw [if_neg]
  rintro (hc | hc)
  · rw [h1] at hc
    exact Bool.noConfusion hc
  · exact h2 hc

/-- From an already-updated state, a run of server updates ends with the
running maximum of the previous offset and all candidates. -/
theorem run_server_updates_offset (steps : List (ℚ × ℚ × ℚ)) :
    ∀ g : TdGlobal.GlobalState, g.server_time_difference_was_updated = true →
      (TdGlobal.run_server_updates g steps).server_time_difference
        = List.foldl max g.server_time_difference (steps.map (fun x => x.1)) := by
  induction steps with
  | nil => intro g _; simp [TdGlobal.run_server_updates]
  | cons a rest ih =>
      obtain ⟨d, m, s⟩ := a
      intro g hg
      simp only [TdGlobal.run_server_updates, List.map_cons, List.foldl_cons]
      rw [ih _ (update_server_flag g d m s), update_server_offset]
      rw [hg]
      by_cases hlt : g.server_time_difference < d
      · simp [hlt, max_eq_right (le_of_lt hlt)]
      · simp [hlt, max_eq_left (le_of_not_lt hlt)]

/-- From an already-updated state, the previous offset followed by the
trajectory of stored offsets is nondecreasing. -/
theorem run_server_updates_chain (steps : List (ℚ × ℚ × ℚ)) :
    ∀ g : TdGlobal.GlobalState, g.server_time_difference_was_updated = true →
      List.Chain' (fun a b => a ≤ b)
        (g.server_time_difference :: TdGlobal.server_offset_traj g steps) := by
  induction steps with
  | nil => intro g _; simp [TdGlobal.server_offset_traj]
  | cons a rest ih =>
      obtain ⟨d, m, s⟩ := a
      intro g hg
      simp only [TdGlobal.server_offset_traj]
      rw [List.chain'_cons]
      refine ⟨?_, ih _ (update_server_flag g d m s)⟩
      rw [update_server_offset, hg]
      by_cases hlt : g.server_time_difference < d
      · simp [hlt, le_of_lt hlt]
      · simp [hlt]

end UpdateServerLemmas

/-- C4: starting from a never-updated server slot, a run of
`update_server_time_difference` calls with candidates `v1..vn` (each
call also supplied with arbitrary clock readings) leaves the stored
server offset equal to `max(v1..vn)`; the trajectory of stored offsets
after each call is nondecreasing; and a candidate is applied exactly
when the slot was never updated or the candidate is strictly larger
than the stored offset (otherwise the call leaves the state unchanged
and writes nothing). -/
theorem update_server_time_difference_monotonic (g : TdGlobal.GlobalState)
    (hinit : g.server_time_difference_was_updated = false)
    (d m s : ℚ) (rest : List (ℚ × ℚ × ℚ)) :
    (TdGlobal.run_server_updates g ((d, m, s) :: rest)).server_time_difference
        = List.foldl max d (rest.map (fun x => x.1)) ∧
    List.Chain' (fun a b => a ≤ b) (TdGlobal.server_offset_traj g ((d, m, s) :: rest)) ∧
    (∀ (g2 : TdGlobal.GlobalState) (d2 m2 s2 : ℚ),
      (g2.server_time_difference_was_updated = false ∨ g2.server_time_difference < d2 →
        ((TdGlobal.update_server_time_difference g2 d2 m2 s2).1).server_time_difference = d2) ∧
      (g2.server_time_difference_was_updated = true → ¬ g2.server_time_difference < d2 →
        TdGlobal.update_server_time_difference g2 d2 m2 s2 = (g2, []))) := by
  have hfirst : ((TdGlobal.update_server_time_difference g d m s).1).server_time_difference
      = d := by
    rw [update_server_offset, if_pos (Or.inl hinit)]
  refine ⟨?_, ?_, ?_⟩
  · simp only [TdGlobal.run_server_updates, List.map_cons, List.foldl_cons]
    rw [run_server_updates_offset rest _ (update_server_flag g d m s), hfirst]
  · simp only [TdGlobal.server_offset_traj]
    exact run_server_updates_chain rest _ (update_server_flag g d m s)
  · intro g2 d2 m2 s2
    refine ⟨?_, update_server_skip g2 d2 m2 s2⟩
    intro hc
    rw [update_server_offset, if_pos hc]

/-- Witness for C4: the run with candidates 5, 3, 9 from the fresh state
ends at 9 = max(5,3,9), and the first call stores its candidate. -/
theorem update_server_time_difference_monotonic_witness :
    (TdGlobal.run_server_updates TdGlobal.g₀
        [(5, 0, 0), (3, 0, 0), (9, 0, 0)]).server_time_difference = 9 ∧
    ((TdGlobal.update_server_time_difference TdGlobal.g₀ 5 0 0).1).server_time_difference
      = 5 := by
  constructor
  · have h := (update_server_time_difference_monotonic TdGlobal.g₀ rfl 5 0 0
      [(3, 0, 0), (9, 0, 0)]).1
    rw [h]
    norm_num [List.foldl]
  · exact ((update_server_time_difference_monotonic TdGlobal.g₀ rfl 5 0 0 []).2.2
      TdGlobal.g₀ 5 0 0).1 (Or.inl rfl)

section SaveRunLemmas

/-- Every write performed during a run of `save_system_time` calls
happens strictly more than 10 seconds of monotonic time after the
throttle stamp the run started with. -/
theorem run_saves_mem (calls : List (ℚ × ℚ)) :
    ∀ (g : TdGlobal.GlobalState) (t : ℚ), t ∈ (TdGlobal.run_saves g calls).2 →
      g.system_time_saved_at + 10 < t := by
  induction calls with
  | nil => intro g t ht; simp [TdGlobal.run_saves] at ht
  | cons a rest ih =>
      obtain ⟨m, s⟩ := a
      intro g t ht
      simp only [TdGlobal.run_saves] at ht
      by_cases hc : g.system_time_saved_at + 10 < m
      · rw [save_system_time_eq, if_pos hc] at ht
        simp only [List.cons_ne_self, if_neg, List.mem_append, List.mem_singleton,
          reduceIte] at ht
        rcases ht with ht | ht
        · rw [ht]; exact hc
        · have h2 := ih _ t ht
          simp only at h2
          linarith
      · rw [save_system_time_eq, if_neg hc] at ht
        simp only [if_pos, List.nil_append, reduceIte] at ht
        exact ih _ t ht

/-- The write times of a run of `save_system_time` calls are spaced
strictly more than 10 seconds apart. -/
theorem run_saves_chain (calls : List (ℚ × ℚ)) :
    ∀ g : TdGlobal.GlobalState,
      List.Chain' (fun a b => a + 10 < b) (TdGlobal.run_saves g calls).2 := by
  induction calls with
  | nil => intro g; simp [TdGlobal.run_saves]
  | cons a rest ih =>
      obtain ⟨m, s⟩ := a
      intro g
      simp only [TdGlobal.run_saves]
      by_cases hc : g.system_time_saved_at + 10 < m
      · rw [save_system_time_eq, if_pos hc]
        simp only [List.cons_ne_self, if_neg, List.singleton_append, reduceIte]
        rw [List.chain'_cons']
        refine ⟨?_, ih _⟩
        intro b hb
        have h2 := run_saves_mem rest _ b (List.mem_of_mem_head? hb)
        simpa using h2
      · rw [save_system_time_eq, if_neg hc]
        simpa using ih g

end SaveRunLemmas

/-- C6: `save_system_time` writes the current system wall-clock reading
to the `"system_time"` key only when strictly more than 10 seconds of
monotonic time have passed since the throttle stamp (so at least 10
seconds have elapsed, as claimed); two calls the second of which comes
within 10 seconds of a first, writing, call produce exactly one write;
and over any run of calls, no two writes ever occur within a 10-second
monotonic window (consecutive write times differ by more than 10). -/
theorem save_system_time_throttle (g : TdGlobal.GlobalState)
    (m s m1 s1 m2 s2 : ℚ) (calls : List (ℚ × ℚ)) :
    ((TdGlobal.save_system_time g m s).2 ≠ [] →
      g.system_time_saved_at + 10 < m ∧ 10 ≤ m - g.system_time_saved_at ∧
      (TdGlobal.save_system_time g m s).2 = [("system_time", s)]) ∧
    (g.system_time_saved_at + 10 < m1 → m2 ≤ m1 + 10 →
      (TdGlobal.run_saves g [(m1, s1), (m2, s2)]).2 = [m1]) ∧
    List.Chain' (fun a b => a + 10 < b) (TdGlobal.run_saves g calls).2 := by
  refine ⟨?_, ?_, run_saves_chain calls g⟩
  · intro hne
    by_cases hc : g.system_time_saved_at + 10 < m
    · refine ⟨hc, by linarith, ?_⟩
      rw [save_system_time_eq, if_pos hc]
    · rw [save_system_time_eq, if_neg hc] at hne
      exact absurd rfl hne
  · intro h1 h2
    have hs1 : ({ g with system_time_saved_at := m1 } :
        TdGlobal.GlobalState).system_time_saved_at + 10 < m2 → False := by
      intro hlt
      simp only at hlt
      linarith
    simp only [TdGlobal.run_saves, save_system_time_eq, if_pos h1, if_neg hs1]
    simp

/-- Witness for C6: from the fresh state (throttle stamp 0), the call at
monotonic time 11 writes and the follow-up at time 15 (within 10
seconds) does not, so the run produces exactly the one write. -/
theorem save_system_time_throttle_witness :
    (TdGlobal.run_saves TdGlobal.g₀ [(11, 100), (15, 101)]).2 = [11] ∧
    (TdGlobal.save_system_time TdGlobal.g₀ 11 100).2 = [("system_time", 100)] ∧
    (10 : ℚ) ≤ 11 - TdGlobal.g₀.system_time_saved_at := by
  refine ⟨?_, ?_, ?_⟩
  · exact (save_system_time_throttle TdGlobal.g₀ 11 100 11 100 15 101 []).2.1
      (by norm_num [TdGlobal.g₀]) (by norm_num)
  · exact ((save_system_time_throttle TdGlobal.g₀ 11 100 11 100 15 101 []).1
      (by norm_num [save_system_time_eq, TdGlobal.g₀])).2.2
  · exact (((save_system_time_throttle TdGlobal.g₀ 11 100 11 100 15 101 []).1
      (by norm_num [save_system_time_eq, TdGlobal.g₀])).2.1)

/-- C1 counterexample: with a malformed persisted
`"server_time_difference"` value, `init` does not return a failure to
its caller — `unserialize(save_diff, save_diff_str).ensure()` hits the
fatal assertion (the process abort modelled by `Except.error ()`), so no
failure `Status` propagates as the result of `init`. -/
theorem init_malformed_aborts_counterexample :
    TdGlobal.init TdGlobal.g₀ {} 0 1 TdGlobal.PValue.malformed TdGlobal.PValue.absent 100 40
      = Except.error () := rfl

/-- C1 amended: `init` never returns a failure to its caller — whenever
it returns, the `Status` is OK.  It instead hits the fatal `ensure()`
abort exactly when the persisted `"server_time_difference"` value is
malformed, or when that value is well-formed and present and the
persisted `"system_time"` value is malformed (a malformed
`"system_time"` alongside an absent `"server_time_difference"` is never
deserialized, so `init` succeeds in that case). -/
theorem init_never_returns_failure (g : TdGlobal.GlobalState)
    (parameters : TdGlobal.TdParameters) (si sc : Int)
    (sd sst : TdGlobal.PValue) (st mn : ℚ) :
    (TdGlobal.init g parameters si sc sd sst st mn = Except.error () ↔
      sd = TdGlobal.PValue.malformed ∨
        ((∃ v, sd = TdGlobal.PValue.value v) ∧ sst = TdGlobal.PValue.malformed)) ∧
    (TdGlobal.init g parameters si sc sd sst st mn = Except.error () ∨
      ∃ g2, TdGlobal.init g parameters si sc sd sst st mn
        = Except.ok (TdGlobal.Status.ok, g2)) := by
  cases sd <;> cases sst <;> simp [TdGlobal.init]

/-- Witness for C1 (amended): a present well-formed offset paired with a
malformed `"system_time"` makes `init` abort rather than return. -/
theorem init_never_returns_failure_witness :
    TdGlobal.init TdGlobal.g₀ {} 0 1 (TdGlobal.PValue.value 3)
      TdGlobal.PValue.malformed 100 40 = Except.error () :=
  (init_never_returns_failure TdGlobal.g₀ {} 0 1 (TdGlobal.PValue.value 3)
      TdGlobal.PValue.malformed 100 40).1.mpr (Or.inr ⟨⟨3, rfl⟩, rfl⟩)

/-- C5: loading a persisted offset `save_diff` with persisted system
time `T_old`, current system time `T_new` and current monotonic reading
`mono`.  The in-memory offset is relative to the monotonic clock, so the
load always rebases the persisted (system-clock-relative) value by
`default_time_difference = T_new - mono`; on top of that, exactly the
backwards-clock correction `T_old - T_new` is added when `T_new < T_old`,
and nothing is added when `T_old ≤ T_new` — including the absent-key
default `T_old = 0` (for any non-negative current system time). -/
theorem init_backwards_clock_correction (g : TdGlobal.GlobalState)
    (parameters : TdGlobal.TdParameters) (si sc : Int)
    (save_diff T_old T_new mono : ℚ) :
    (T_new < T_old →
      ∃ g2, TdGlobal.init g parameters si sc (TdGlobal.PValue.value save_diff)
          (TdGlobal.PValue.value T_old) T_new mono
          = Except.ok (TdGlobal.Status.ok, g2) ∧
        g2.server_time_difference = (save_diff + (T_new - mono)) + (T_old - T_new)) ∧
    (T_old ≤ T_new →
      ∃ g2, TdGlobal.init g parameters si sc (TdGlobal.PValue.value save_diff)
          (TdGlobal.PValue.value T_old) T_new mono
          = Except.ok (TdGlobal.Status.ok, g2) ∧
        g2.server_time_difference = save_diff + (T_new - mono)) ∧
    (0 ≤ T_new →
      ∃ g2, TdGlobal.init g parameters si sc (TdGlobal.PValue.value save_diff)
          TdGlobal.PValue.absent T_new mono
          = Except.ok (TdGlobal.Status.ok, g2) ∧
        g2.server_time_difference = save_diff + (T_new - mono)) := by
  refine ⟨?_, ?_, ?_⟩
  · intro h
    refine ⟨_, rfl, ?_⟩
    show (if T_old > T_new then (save_diff + (T_new - mono)) + (T_old - T_new)
          else save_diff + (T_new - mono)) = (save_diff + (T_new - mono)) + (T_old - T_new)
    rw [if_pos h]
  · intro h
    refine ⟨_, rfl, ?_⟩
    show (if T_old > T_new then (save_diff + (T_new - mono)) + (T_old - T_new)
          else save_diff + (T_new - mono)) = save_diff + (T_new - mono)
    rw [if_neg (not_lt.mpr h)]
  · intro h
    refine ⟨_, rfl, ?_⟩
    show (if (0 : ℚ) > T_new then (save_diff + (T_new - mono)) + (0 - T_new)
          else save_diff + (T_new - mono)) = save_diff + (T_new - mono)
    rw [if_neg (not_lt.mpr h)]

/-- Witness for C5: persisted offset 5, persisted system time 50,
current system time 30 (clock went backwards by 20), monotonic reading
10: the loaded offset is 5 + (30 - 10) + (50 - 30). -/
theorem init_backwards_clock_correction_witness :
    ∃ g2, TdGlobal.init TdGlobal.g₀ {} 0 1 (TdGlobal.PValue.value 5)
        (TdGlobal.PValue.value 50) 30 10 = Except.ok (TdGlobal.Status.ok, g2) ∧
      g2.server_time_difference = (5 + (30 - 10)) + (50 - 30) :=
  (init_backwards_clock_correction TdGlobal.g₀ {} 0 1 5 50 30 10).1 (by norm_num)

/-- C10: whenever `init` returns, the server slot's updated flag is
false — also when a persisted offset was loaded — so the next
`update_server_time_difference` call stores its candidate
unconditionally; in particular a candidate strictly smaller than the
init-loaded offset makes the stored server offset decrease. -/
theorem init_resets_server_updated_flag (g : TdGlobal.GlobalState)
    (parameters : TdGlobal.TdParameters) (si sc : Int)
    (sd sst : TdGlobal.PValue) (st mn : ℚ)
    (status : TdGlobal.Status) (g2 : TdGlobal.GlobalState)
    (h : TdGlobal.init g parameters si sc sd sst st mn = Except.ok (status, g2)) :
    g2.server_time_difference_was_updated = false ∧
    (∀ d m s : ℚ,
      ((TdGlobal.update_server_time_difference g2 d m s).1).server_time_difference = d) ∧
    (∀ d m s : ℚ, d < g2.server_time_difference →
      ((TdGlobal.update_server_time_difference g2 d m s).1).server_time_difference
        < g2.server_time_difference) := by
  have hflag : g2.server_time_difference_was_updated = false := by
    cases sd <;> cases sst <;>
      simp only [TdGlobal.init, Except.ok.injEq, Prod.mk.injEq, reduceCtorEq] at h <;>
      obtain ⟨h1, h2⟩ := h <;> subst h2 <;> rfl
  refine ⟨hflag, ?_, ?_⟩
  · intro d m s
    rw [update_server_offset, if_pos (Or.inl hflag)]
  · intro d m s hlt
    rw [update_server_offset, if_pos (Or.inl hflag)]
    exact hlt

/-- Witness for C10: `init` loads the persisted offset 90 rebased to
100, leaves the updated flag false, and the first update with the
smaller candidate 5 stores 5, decreasing the offset from 100. -/
theorem init_resets_server_updated_flag_witness :
    ∃ g2, TdGlobal.init TdGlobal.g₀ {} 0 1 (TdGlobal.PValue.value 90)
        TdGlobal.PValue.absent 20 10 = Except.ok (TdGlobal.Status.ok, g2) ∧
      g2.server_time_difference_was_updated = false ∧
      g2.server_time_difference = 100 ∧
      ((TdGlobal.update_server_time_difference g2 5 0 0).1).server_time_difference = 5 ∧
      ((TdGlobal.update_server_time_difference g2 5 0 0).1).server_time_difference
        < g2.server_time_difference := by
  have h := init_resets_server_updated_flag TdGlobal.g₀ {} 0 1 (TdGlobal.PValue.value 90)
      TdGlobal.PValue.absent 20 10 TdGlobal.Status.ok _ rfl
  have hoff : ((90 : ℚ) + (20 - 10)) = 100 := by norm_num
  refine ⟨_, rfl, h.1, ?_, h.2.1 5 0 0, h.2.2 5 0 0 ?_⟩
  · show (if (0 : ℚ) > 20 then ((90 : ℚ) + (20 - 10)) + (0 - 20)
          else (90 : ℚ) + (20 - 10)) = 100
    rw [if_neg (by norm_num)]
    exact hoff
  · show (5 : ℚ) < (if (0 : ℚ) > 20 then ((90 : ℚ) + (20 - 10)) + (0 - 20)
          else (90 : ℚ) + (20 - 10))
    rw [if_neg (by norm_num)]
    norm_num
